import Mathlib

/-!
Shallow embedding of the browser-side chat/upload client of the
Sagittarius_AI repository (`src/scripts/script.js`).

The script is an event-driven DOM controller.  We embed its state as an
explicit record and its two entry points `sendMessage` / `uploadFile` as
pure functions from the current state and the outcome of the single
`fetch` call they perform to the next state plus the list of HTTP
requests issued.  The `setTimeout`-based status clearing of
`setUploadStatus` is embedded separately as a timed transition system
(`StatusTimedState`), since it is the only time-dependent behaviour.
-/

namespace Sagittarius

/-- A JavaScript value that the `lastUploadedFileName` variable (line 9 of
`script.js`) can hold: it starts as `null`, and an assignment
`lastUploadedFileName = data.filename` stores either a string or
`undefined` (when the parsed body lacks the field). -/
inductive JsStr where
  | null
  | undef
  | str (s : String)
deriving DecidableEq

/-- A DOM node inside the `chat-box` element: either a message `div`
created by `addMessage` (with textContent `text` and classes
`message`, `SENDER-message`), or the transient `loadingMessageDiv`
(textContent `...typing...`, classes `message`, `bot-message`).
The separate constructor models DOM node identity: `sendMessage`
removes exactly the loading node it created (`removeChild` on the saved
reference), never a look-alike message div added through `addMessage`. -/
inductive ChatNode where
  | msg (text : String) (sender : String)
  | loading
deriving DecidableEq

/-- The client's mutable state: the remembered filename (line 9), the
transcript (`chat-box` children), the text input's value, and the
`uploadStatus` element's textContent and className. -/
structure ClientState where
  lastUploadedFileName : JsStr
  chatBox : List ChatNode
  userInput : String
  uploadStatusText : String
  uploadStatusClass : String
deriving DecidableEq

/-- An HTTP request issued by the client via `fetch`: a POST /chat whose
JSON body is `{message, last_uploaded_file}` (lines 47-58), or a POST
/upload whose multipart body carries the selected file (lines 95-102). -/
inductive Request where
  | chat (message : String) (last_uploaded_file : JsStr)
  | upload (file : String)
deriving DecidableEq

/-- JSON-parse outcome of a /chat response body: unparseable, or parsed
with an optional string `response` field (`none` models the field being
absent). -/
inductive ChatBody where
  | unparseable
  | parsed (response? : Option String)
deriving DecidableEq

/-- JSON-parse outcome of an /upload response body.  For an unparseable
body we record the message of the `SyntaxError` that `response.json()`
rejects with, because the catch branch of `uploadFile` displays it.
A parsed body's fields are the JavaScript values the property reads
yield: `undef` when the property is absent, `null` when it holds JSON
null, and `str s` when it holds a string. -/
inductive UploadBody where
  | unparseable (errMessage : String)
  | parsed (filename? : JsStr) (message? : JsStr)
deriving DecidableEq

/-- Outcome of one `fetch` call: transport failure (the promise rejects
with an error whose `.message` is `errMessage` — no response at all), or
an HTTP response with a status code and a body of parse-outcome type
`β`. -/
inductive FetchOutcome (β : Type) where
  | networkError (errMessage : String)
  | response (status : Nat) (body : β)
deriving DecidableEq

/-- `Response.ok` of the Fetch API: the status code is in the inclusive
range 200-299. -/
def respOk (status : Nat) : Bool :=
  decide (200 ≤ status ∧ status ≤ 299)

/-- JavaScript `field || fallback` where `field` is a possibly-absent
string-valued object property: `undefined` and the empty string are
falsy, every other string is truthy. -/
def jsOr (field : Option String) (fallback : String) : String :=
  match field with
  | none => fallback
  | some s => if s = "" then fallback else s

/-- JavaScript `field || fallback` on a JavaScript value: `null`,
`undefined` and the empty string are falsy, every other string is
truthy. -/
def jsOrVal (field : JsStr) (fallback : String) : String :=
  match field with
  | JsStr.null => fallback
  | JsStr.undef => fallback
  | JsStr.str s => if s = "" then fallback else s

/-- Template-literal rendering of a JavaScript value: `undefined`
stringifies as "undefined" and `null` as "null". -/
def jsTemplateVal (field : JsStr) : String :=
  match field with
  | JsStr.null => "null"
  | JsStr.undef => "undefined"
  | JsStr.str s => s

/-- Assignment of a JavaScript value to a node's `textContent`: WebIDL
converts `undefined` to `null` for the nullable DOMString attribute, and
the `textContent` setter treats `null` as the empty string. -/
def jsTextContentVal (field : JsStr) : String :=
  match field with
  | JsStr.null => ""
  | JsStr.undef => ""
  | JsStr.str s => s

/-- Assignment of a possibly-undefined string field to a node's
`textContent`: WebIDL converts `undefined` to `null` for the nullable
DOMString attribute, and the `textContent` setter treats `null` as the
empty string. -/
def jsTextContent (field : Option String) : String :=
  match field with
  | none => ""
  | some s => s

/-- The generic fallback error text built from the status code, as in
the template literal `HTTP error! status: STATUS`. -/
def genericHttpError (status : Nat) : String :=
  "HTTP error! status: " ++ toString status

/-- The `errorData.response` property read on the /chat error path
(line 67): when the body did not parse, `errorData` is the empty object
`{}` supplied by `.catch(() => ({}))`, so the field is absent. -/
def chatRespField : ChatBody → Option String
  | ChatBody.unparseable => none
  | ChatBody.parsed r => r

/-- The `errorData.message` property read on the /upload error path
(line 106); it reads as `undefined` when the body did not parse (then
`errorData = {}`). -/
def uploadMsgField : UploadBody → JsStr
  | UploadBody.unparseable _ => JsStr.undef
  | UploadBody.parsed _ m => m

/-- JavaScript `String.prototype.trim()`: strips leading and trailing
whitespace.  Embedded structurally over the character list so that it
evaluates on concrete inputs. -/
def jsTrim (s : String) : String :=
  String.mk (((s.data.dropWhile Char.isWhitespace).reverse.dropWhile
    Char.isWhitespace).reverse)

/-- `addMessage` (lines 12-18): creates a message div with the given
textContent and sender class and appends it to the chat box. -/
def addMessage (box : List ChatNode) (message sender : String) : List ChatNode :=
  box ++ [ChatNode.msg message sender]

/-- The guarded removal `if (chatBox.contains(loadingMessageDiv))
chatBox.removeChild(loadingMessageDiv)` (lines 61-63 and 77-79): within
one `sendMessage` invocation the loading div, when still present, is the
most recently appended child, so removal takes it from the end. -/
def removeLoading (box : List ChatNode) : List ChatNode :=
  if box.getLast? = some ChatNode.loading then box.dropLast else box

/-- The fixed connectivity-failure text rendered by the catch branch of
`sendMessage` (line 81). -/
def connectionErrorText : String :=
  "Oops! Could not connect to the chatbot server. Please check if the backend is running."

/-- State effect of `setUploadStatus` (lines 21-23): sets the status
element's textContent and className.  The `setTimeout` scheduled on
lines 24-27 is modelled by the timed system `StatusTimedState` below,
which is where the auto-clear claims live. -/
def setUploadStatus (st : ClientState) (message ty : String) : ClientState :=
  { st with uploadStatusText := message,
            uploadStatusClass := "status-message " ++ ty }

/-- `sendMessage` (lines 31-83), parameterised by the outcome of its one
`fetch('http://127.0.0.1:5000/chat')` call.  Returns the next client
state and the list of HTTP requests issued during the invocation. -/
def sendMessage (st : ClientState) (outcome : FetchOutcome ChatBody) :
    ClientState × List Request :=
  let message := jsTrim st.userInput
  if message = "" then (st, [])
  else
    let st₁ : ClientState :=
      { st with chatBox := addMessage st.chatBox message "user" ++ [ChatNode.loading],
                userInput := "" }
    let req := Request.chat message st.lastUploadedFileName
    match outcome with
    | FetchOutcome.networkError _ =>
        ({ st₁ with chatBox :=
            addMessage (removeLoading st₁.chatBox) connectionErrorText "bot" }, [req])
    | FetchOutcome.response status body =>
        let box₂ := removeLoading st₁.chatBox
        if respOk status then
          match body with
          | ChatBody.unparseable =>
              ({ st₁ with chatBox := addMessage box₂ connectionErrorText "bot" }, [req])
          | ChatBody.parsed r =>
              ({ st₁ with chatBox := addMessage box₂ (jsTextContent r) "bot" }, [req])
        else
          let errorMessage := jsOr (chatRespField body) (genericHttpError status)
          ({ st₁ with chatBox := addMessage box₂ ("Bot Error: " ++ errorMessage) "bot" },
           [req])

/-- The confirmation text appended after a successful upload (template
literal on line 113). -/
def uploadConfirmText (filename : String) : String :=
  "File \"" ++ filename ++
    "\" uploaded successfully to \x27mangodata\x27 folder. You can now refer to it in your queries."

/-- `uploadFile` (lines 86-119), parameterised by the selected file (the
`csvFileInput.files[0]` lookup: `none` when no file is selected) and by
the outcome of its one `fetch('http://127.0.0.1:5000/upload')` call. -/
def uploadFile (st : ClientState) (file : Option String)
    (outcome : FetchOutcome UploadBody) : ClientState × List Request :=
  match file with
  | none => (setUploadStatus st "Please select a file first." "error", [])
  | some f =>
      let st₁ := setUploadStatus st "Uploading..." "info"
      let req := Request.upload f
      match outcome with
      | FetchOutcome.networkError errMessage =>
          (setUploadStatus st₁ ("Upload failed: " ++ errMessage) "error", [req])
      | FetchOutcome.response status body =>
          if respOk status then
            match body with
            | UploadBody.unparseable errMessage =>
                (setUploadStatus st₁ ("Upload failed: " ++ errMessage) "error", [req])
            | UploadBody.parsed fn msg =>
                let st₂ := setUploadStatus st₁ (jsTextContentVal msg) "success"
                let st₃ := { st₂ with lastUploadedFileName := fn }
                ({ st₃ with chatBox :=
                    addMessage st₃.chatBox (uploadConfirmText (jsTemplateVal fn)) "bot" },
                 [req])
          else
            (setUploadStatus st₁
                ("Upload failed: " ++ jsOrVal (uploadMsgField body) (genericHttpError status))
                "error", [req])

/-- One user-triggered client operation together with the outcome of the
fetch it performs (if any). -/
inductive ClientOp where
  | send (outcome : FetchOutcome ChatBody)
  | upload (file : Option String) (outcome : FetchOutcome UploadBody)

/-- Apply one operation to the client state. -/
def applyOp (st : ClientState) : ClientOp → ClientState × List Request
  | ClientOp.send outcome => sendMessage st outcome
  | ClientOp.upload file outcome => uploadFile st file outcome

/-- An operation whose upload success branch (lines 110-114) runs: an
upload with a file selected, an ok response, and a parseable body. -/
def isSuccessfulUpload : ClientOp → Bool
  | ClientOp.upload (some _) (FetchOutcome.response status (UploadBody.parsed _ _)) =>
      respOk status
  | _ => false

/-- The `uploadStatus` DOM element together with the pending `setTimeout`
callbacks scheduled by `setUploadStatus`, each recorded by its absolute
firing time in milliseconds. -/
structure StatusTimedState where
  text : String
  className : String
  timers : List Nat
deriving DecidableEq

/-- The fixed delay passed to `setTimeout` on line 27. -/
def statusClearDelay : Nat := 5000

/-- `setUploadStatus` (lines 21-28) invoked at absolute time `now`: sets
the text and class and schedules an unconditional clear
`statusClearDelay` milliseconds later.  The previously scheduled timer
is neither cancelled nor generation-tagged. -/
def setUploadStatusTimed (now : Nat) (message ty : String)
    (s : StatusTimedState) : StatusTimedState :=
  { text := message,
    className := "status-message " ++ ty,
    timers := s.timers ++ [now + statusClearDelay] }

/-- A pending timeout with firing time `t` fires: its callback
(lines 24-27) clears the status display unconditionally. -/
def timerFire (s : StatusTimedState) (t : Nat) : StatusTimedState :=
  if t ∈ s.timers then
    { text := "", className := "status-message", timers := s.timers.erase t }
  else s

/-- The status element before any `setUploadStatus` call. -/
def statusInit : StatusTimedState :=
  { text := "", className := "status-message", timers := [] }

/-- `t` mentions `sub`: `sub` occurs contiguously inside `t`. -/
def Mentions (t sub : String) : Prop :=
  ∃ pre post, t = pre ++ sub ++ post

/-- Recogniser for user-sender message divs. -/
def isUserMsg : ChatNode → Bool
  | ChatNode.msg _ sender => sender == "user"
  | ChatNode.loading => false

/-- Number of user-sender messages in the transcript. -/
def userMsgCount (box : List ChatNode) : Nat :=
  (box.filter isUserMsg).length

/-- The bot-sender text that one non-trivial `sendMessage` invocation
appends, as a function of the fetch outcome (used to state a single
characterisation lemma covering every branch). -/
def botReplyText : FetchOutcome ChatBody → String
  | FetchOutcome.networkError _ => connectionErrorText
  | FetchOutcome.response status body =>
      if respOk status then
        match body with
        | ChatBody.unparseable => connectionErrorText
        | ChatBody.parsed r => jsTextContent r
      else "Bot Error: " ++ jsOr (chatRespField body) (genericHttpError status)

/-- A concrete client state with a pending input, used to exercise the
theorems on explicit data. -/
def exChatState : ClientState :=
  { lastUploadedFileName := JsStr.null,
    chatBox := [],
    userInput := "hello",
    uploadStatusText := "",
    uploadStatusClass := "status-message" }

/-- A concrete client state that already remembers an uploaded file. -/
def exSetState : ClientState :=
  { lastUploadedFileName := JsStr.str "a.csv",
    chatBox := [],
    userInput := "",
    uploadStatusText := "",
    uploadStatusClass := "status-message" }

theorem removeLoading_concat (box : List ChatNode) :
    removeLoading (box ++ [ChatNode.loading]) = box := by
  simp [removeLoading]

theorem removeLoading_append_loading (box : List ChatNode) (a : ChatNode) :
    removeLoading (box ++ [a, ChatNode.loading]) = box ++ [a] := by
  rw [show box ++ [a, ChatNode.loading] = (box ++ [a]) ++ [ChatNode.loading] by simp,
    removeLoading_concat]

/-- Characterisation of `sendMessage` on input whose trimmed value is
non-empty: the transcript gains the trimmed user message and one bot
reply, the input is cleared, everything else is unchanged, and exactly
one /chat request carrying the trimmed message and the remembered
filename is issued. -/
theorem sendMessage_nonempty (st : ClientState) (outcome : FetchOutcome ChatBody)
    (h : jsTrim st.userInput ≠ "") :
    sendMessage st outcome =
      ({ st with
          chatBox := st.chatBox ++ [ChatNode.msg (jsTrim st.userInput) "user",
                                    ChatNode.msg (botReplyText outcome) "bot"],
          userInput := "" },
       [Request.chat (jsTrim st.userInput) st.lastUploadedFileName]) := by
  cases outcome with
  | networkError e =>
      simp [sendMessage, h, addMessage, removeLoading_append_loading, botReplyText]
  | response status body =>
      by_cases hok : respOk status
      · cases body <;>
          simp [sendMessage, h, hok, addMessage, removeLoading_append_loading, botReplyText]
      · simp [sendMessage, h, hok, addMessage, removeLoading_append_loading, botReplyText]

/-- `sendMessage` never writes the remembered filename. -/
theorem sendMessage_lastUploadedFileName (st : ClientState)
    (outcome : FetchOutcome ChatBody) :
    (sendMessage st outcome).1.lastUploadedFileName = st.lastUploadedFileName := by
  by_cases h : jsTrim st.userInput = ""
  · simp [sendMessage, h]
  · rw [sendMessage_nonempty st outcome h]

/-- The remembered filename after any operation: either it is untouched,
or the operation was a successful upload and it now holds the `filename`
field of the response body. -/
theorem applyOp_lastUploadedFileName (st : ClientState) (op : ClientOp) :
    (applyOp st op).1.lastUploadedFileName = st.lastUploadedFileName ∨
    ∃ file status fn msg,
      op = ClientOp.upload (some file)
            (FetchOutcome.response status (UploadBody.parsed fn msg)) ∧
      respOk status = true ∧
      (applyOp st op).1.lastUploadedFileName = fn := by
  cases op with
  | send outcome => exact Or.inl (sendMessage_lastUploadedFileName st outcome)
  | upload file outcome =>
      cases file with
      | none => exact Or.inl rfl
      | some f =>
          cases outcome with
          | networkError e => exact Or.inl rfl
          | response status body =>
              by_cases hok : respOk status
              · cases body with
                | unparseable e =>
                    exact Or.inl (by simp [applyOp, uploadFile, hok, setUploadStatus])
                | parsed fn msg =>
                    exact Or.inr ⟨f, status, fn, msg, rfl, hok,
                      by simp [applyOp, uploadFile, hok, setUploadStatus]⟩
              · exact Or.inl (by simp [applyOp, uploadFile, hok, setUploadStatus])

/-- C1: for every input whose whitespace-trimmed value is non-empty, one
`sendMessage` invocation appends exactly one user-sender message to the
transcript and issues exactly one POST /chat request whose body is
`{message, last_uploaded_file}`; for every input whose trimmed value is
empty, it issues zero requests and appends zero messages (the state is
untouched). -/
theorem C1_sendMessage_one_user_message_one_request
    (st : ClientState) (outcome : FetchOutcome ChatBody) :
    (jsTrim st.userInput = "" →
        (sendMessage st outcome).1 = st ∧ (sendMessage st outcome).2 = []) ∧
    (jsTrim st.userInput ≠ "" →
        userMsgCount (sendMessage st outcome).1.chatBox = userMsgCount st.chatBox + 1 ∧
        (sendMessage st outcome).2 =
          [Request.chat (jsTrim st.userInput) st.lastUploadedFileName]) := by
  constructor
  · intro h
    constructor <;> simp [sendMessage, h]
  · intro h
    rw [sendMessage_nonempty st outcome h]
    refine ⟨?_, rfl⟩
    simp [userMsgCount, isUserMsg, List.filter_append]

/-- Witness for C1 on concrete data: sending "hello" from the example
state issues the one /chat request carrying the trimmed message and the
remembered (null) filename, and the user-message count rises by one. -/
theorem C1_witness :
    userMsgCount (sendMessage exChatState (FetchOutcome.networkError "err")).1.chatBox =
      userMsgCount exChatState.chatBox + 1 ∧
    (sendMessage exChatState (FetchOutcome.networkError "err")).2 =
      [Request.chat (jsTrim exChatState.userInput) exChatState.lastUploadedFileName] :=
  (C1_sendMessage_one_user_message_one_request exChatState
    (FetchOutcome.networkError "err")).2 (by decide)

/-- C2: for every successful POST /upload response with body
`{filename: f, message: m}`, `uploadFile` sets the remembered filename
to `f`, shows a success status displaying `m`, and appends exactly one
bot-sender confirmation message mentioning `f` to the transcript. -/
theorem C2_upload_success (st : ClientState) (f fn m : String) (status : Nat)
    (hok : respOk status = true) :
    (uploadFile st (some f)
        (FetchOutcome.response status
          (UploadBody.parsed (JsStr.str fn) (JsStr.str m)))).1.lastUploadedFileName
        = JsStr.str fn ∧
    (uploadFile st (some f)
        (FetchOutcome.response status
          (UploadBody.parsed (JsStr.str fn) (JsStr.str m)))).1.uploadStatusText
        = m ∧
    (uploadFile st (some f)
        (FetchOutcome.response status
          (UploadBody.parsed (JsStr.str fn) (JsStr.str m)))).1.uploadStatusClass
        = "status-message success" ∧
    (uploadFile st (some f)
        (FetchOutcome.response status
          (UploadBody.parsed (JsStr.str fn) (JsStr.str m)))).1.chatBox
        = st.chatBox ++ [ChatNode.msg (uploadConfirmText fn) "bot"] ∧
    Mentions (uploadConfirmText fn) fn := by
  refine ⟨?_, ?_, ?_, ?_, ?_⟩ <;>
    simp [uploadFile, hok, setUploadStatus, addMessage, jsTextContentVal,
      jsTemplateVal, uploadConfirmText, Mentions]
  exact ⟨"File \"",
    "\" uploaded successfully to \x27mangodata\x27 folder. You can now refer to it in your queries.",
    rfl⟩

/-- Witness for C2 on concrete data: a 200 /upload response with body
`{filename: "a.csv", message: "ok"}`. -/
theorem C2_witness :
    (uploadFile exChatState (some "data.csv")
        (FetchOutcome.response 200
          (UploadBody.parsed (JsStr.str "a.csv") (JsStr.str "ok")))).1.lastUploadedFileName
        = JsStr.str "a.csv" ∧
    (uploadFile exChatState (some "data.csv")
        (FetchOutcome.response 200
          (UploadBody.parsed (JsStr.str "a.csv") (JsStr.str "ok")))).1.uploadStatusText
        = "ok" ∧
    (uploadFile exChatState (some "data.csv")
        (FetchOutcome.response 200
          (UploadBody.parsed (JsStr.str "a.csv") (JsStr.str "ok")))).1.uploadStatusClass
        = "status-message success" ∧
    (uploadFile exChatState (some "data.csv")
        (FetchOutcome.response 200
          (UploadBody.parsed (JsStr.str "a.csv") (JsStr.str "ok")))).1.chatBox
        = exChatState.chatBox ++ [ChatNode.msg (uploadConfirmText "a.csv") "bot"] ∧
    Mentions (uploadConfirmText "a.csv") "a.csv" :=
  C2_upload_success exChatState "data.csv" "a.csv" "ok" 200 (by decide)

/-- C3 as stated is false: it asserts that the remembered filename is
never reset to empty/null after having been set, but line 112 stores
whatever `filename` field a successful /upload response carries, so a
later successful upload whose body is `{filename: "", message: "ok"}`
resets an already-set name to the empty string. -/
theorem C3_counterexample :
    ¬ (∀ (st : ClientState) (op : ClientOp),
        (isSuccessfulUpload op = false →
          (applyOp st op).1.lastUploadedFileName = st.lastUploadedFileName) ∧
        ((st.lastUploadedFileName ≠ JsStr.null ∧
          st.lastUploadedFileName ≠ JsStr.str "") →
          ((applyOp st op).1.lastUploadedFileName ≠ JsStr.null ∧
           (applyOp st op).1.lastUploadedFileName ≠ JsStr.str ""))) := by
  intro h
  have h2 := (h exSetState
      (ClientOp.upload (some "data.csv")
        (FetchOutcome.response 200
          (UploadBody.parsed (JsStr.str "") (JsStr.str "ok"))))).2
      (by decide)
  exact h2.2 (by decide)

/-- C3 (amended): the remembered filename is written only by a
successful `uploadFile` completion — every other operation and every
failing path leaves it unchanged; a successful upload, however,
overwrites it with whatever `filename` field the response body carries:
a string (possibly empty), `undefined` when the field is absent, or
`null` when the field holds JSON null.  In particular only a successful
upload can reset it to empty, null or undefined. -/
theorem C3_amended_filename_frame (st : ClientState) (op : ClientOp) :
    (isSuccessfulUpload op = false →
        (applyOp st op).1.lastUploadedFileName = st.lastUploadedFileName) ∧
    (∀ file status fn m,
        op = ClientOp.upload (some file)
              (FetchOutcome.response status (UploadBody.parsed fn m)) →
        respOk status = true →
        (applyOp st op).1.lastUploadedFileName = fn) := by
  constructor
  · intro hfail
    rcases applyOp_lastUploadedFileName st op with heq | ⟨file, status, fn, m, hop, hok, _⟩
    · exact heq
    · subst hop
      simp [isSuccessfulUpload, hok] at hfail
  · intro file status fn m hop hok
    subst hop
    simp [applyOp, uploadFile, hok, setUploadStatus]

/-- Witness for C3 (amended) on concrete data: a `sendMessage` transport
failure leaves the remembered filename "a.csv" unchanged, and a 200
/upload response with body `{filename: "b.csv", message: "ok"}`
overwrites it with "b.csv". -/
theorem C3_amended_witness :
    (applyOp exSetState (ClientOp.send (FetchOutcome.networkError "err"))).1.lastUploadedFileName
      = exSetState.lastUploadedFileName ∧
    (applyOp exSetState
        (ClientOp.upload (some "data.csv")
          (FetchOutcome.response 200
            (UploadBody.parsed (JsStr.str "b.csv") (JsStr.str "ok"))))).1.lastUploadedFileName
      = JsStr.str "b.csv" := by
  constructor
  · exact (C3_amended_filename_frame exSetState
      (ClientOp.send (FetchOutcome.networkError "err"))).1 (by decide)
  · exact (C3_amended_filename_frame exSetState
      (ClientOp.upload (some "data.csv")
        (FetchOutcome.response 200
          (UploadBody.parsed (JsStr.str "b.csv") (JsStr.str "ok"))))).2
      "data.csv" 200 (JsStr.str "b.csv") (JsStr.str "ok") rfl (by decide)

/-- C4 is violated by the code: `setUploadStatus` schedules an
unconditional clear 5000 ms ahead and neither cancels nor tags the
previous timer, so the stale timer of an earlier status erases a
superseding status prematurely.  Concretely: statuses are set at t = 0
and t = 3000; when the first status's timer fires at t = 5000 it clears
the display even though the superseding status, set at t = 3000, should
remain visible until t = 8000. -/
theorem C4_stale_timer_clears_superseding_status :
    (timerFire
        (setUploadStatusTimed 3000 "second status" "info"
          (setUploadStatusTimed 0 "first status" "info" statusInit))
        5000).text = "" ∧
    5000 < 3000 + statusClearDelay := by
  constructor <;> decide

/-- C6: after every completed `sendMessage` invocation — success,
non-success response, or transport failure — the transient typing
placeholder is absent from the transcript (given that, as at every event
boundary, it was absent when the invocation began). -/
theorem C6_placeholder_absent (st : ClientState) (outcome : FetchOutcome ChatBody)
    (h : ChatNode.loading ∉ st.chatBox) :
    ChatNode.loading ∉ (sendMessage st outcome).1.chatBox := by
  by_cases hne : jsTrim st.userInput = ""
  · simpa [sendMessage, hne] using h
  · rw [sendMessage_nonempty st outcome hne]
    simp [h]

/-- Witness for C6 on concrete data: after a transport failure the
placeholder is absent from the example transcript. -/
theorem C6_witness :
    ChatNode.loading ∉
      (sendMessage exChatState (FetchOutcome.response 500 ChatBody.unparseable)).1.chatBox :=
  C6_placeholder_absent exChatState (FetchOutcome.response 500 ChatBody.unparseable)
    (by decide)

/-- C7: for every `uploadFile` invocation with no file selected, the
client issues zero HTTP requests and shows the error status immediately;
everything else — in particular the remembered filename and the
transcript — is unchanged. -/
theorem C7_upload_no_file (st : ClientState) (outcome : FetchOutcome UploadBody) :
    uploadFile st none outcome =
      ({ st with uploadStatusText := "Please select a file first.",
                 uploadStatusClass := "status-message error" }, []) := by
  simp [uploadFile, setUploadStatus]

/-- C8: for every `sendMessage` invocation whose /chat fetch suffers a
transport failure, the typing placeholder is gone and exactly one
bot-sender message carrying the fixed connectivity-failure text is
rendered; the whole outcome is independent of which transport error
occurred. -/
theorem C8_transport_failure (st : ClientState) (errMessage : String)
    (hne : jsTrim st.userInput ≠ "") :
    (sendMessage st (FetchOutcome.networkError errMessage)).1.chatBox =
      st.chatBox ++ [ChatNode.msg (jsTrim st.userInput) "user",
                     ChatNode.msg connectionErrorText "bot"] ∧
    (∀ e₁ e₂ : String,
        sendMessage st (FetchOutcome.networkError e₁) =
          sendMessage st (FetchOutcome.networkError e₂)) ∧
    (ChatNode.loading ∉ st.chatBox →
        ChatNode.loading ∉
          (sendMessage st (FetchOutcome.networkError errMessage)).1.chatBox) := by
  refine ⟨?_, ?_, ?_⟩
  · rw [sendMessage_nonempty st _ hne]
    simp [botReplyText]
  · intro e₁ e₂
    rw [sendMessage_nonempty st _ hne, sendMessage_nonempty st _ hne]
    simp [botReplyText]
  · intro h
    rw [sendMessage_nonempty st _ hne]
    simp [h]

/-- Witness for C8 on concrete data: a rejected fetch with message
"Failed to fetch" renders the fixed connectivity-failure bot message. -/
theorem C8_witness :
    (sendMessage exChatState (FetchOutcome.networkError "Failed to fetch")).1.chatBox =
      exChatState.chatBox ++ [ChatNode.msg (jsTrim exChatState.userInput) "user",
                              ChatNode.msg connectionErrorText "bot"] :=
  (C8_transport_failure exChatState "Failed to fetch" (by decide)).1

/-- C9: for every successful POST /chat response whose body parses to
`{response: r}`, `sendMessage` appends exactly one bot-sender message
whose text equals `r`, and the typing placeholder is absent afterwards. -/
theorem C9_chat_success (st : ClientState) (r : String) (status : Nat)
    (hne : jsTrim st.userInput ≠ "") (hok : respOk status = true) :
    (sendMessage st (FetchOutcome.response status (ChatBody.parsed (some r)))).1.chatBox =
      st.chatBox ++ [ChatNode.msg (jsTrim st.userInput) "user", ChatNode.msg r "bot"] ∧
    (ChatNode.loading ∉ st.chatBox →
        ChatNode.loading ∉
          (sendMessage st
            (FetchOutcome.response status (ChatBody.parsed (some r)))).1.chatBox) := by
  constructor
  · rw [sendMessage_nonempty st _ hne]
    simp [botReplyText, hok, jsTextContent]
  · intro h
    rw [sendMessage_nonempty st _ hne]
    simp [h]

/-- Witness for C9 on concrete data: a 200 /chat response with body
`{response: "hi"}`. -/
theorem C9_witness :
    (sendMessage exChatState (FetchOutcome.response 200 (ChatBody.parsed (some "hi")))).1.chatBox =
      exChatState.chatBox ++ [ChatNode.msg (jsTrim exChatState.userInput) "user",
                              ChatNode.msg "hi" "bot"] :=
  (C9_chat_success exChatState "hi" 200 (by decide) (by decide)).1

/-- C10: for every HTTP-ok POST /chat response whose body is not
parseable as JSON, `sendMessage` renders exactly the same fixed
connectivity-failure bot message as for a transport failure (not a
response-field message and not a status-code message), and the typing
placeholder is still removed: the resulting state is identical to the
transport-failure state. -/
theorem C10_ok_unparseable_body (st : ClientState) (status : Nat) (errMessage : String)
    (hne : jsTrim st.userInput ≠ "") (hok : respOk status = true) :
    (sendMessage st (FetchOutcome.response status ChatBody.unparseable)).1.chatBox =
      st.chatBox ++ [ChatNode.msg (jsTrim st.userInput) "user",
                     ChatNode.msg connectionErrorText "bot"] ∧
    (sendMessage st (FetchOutcome.response status ChatBody.unparseable)).1 =
      (sendMessage st (FetchOutcome.networkError errMessage)).1 ∧
    (ChatNode.loading ∉ st.chatBox →
        ChatNode.loading ∉
          (sendMessage st (FetchOutcome.response status ChatBody.unparseable)).1.chatBox) := by
  refine ⟨?_, ?_, ?_⟩
  · rw [sendMessage_nonempty st _ hne]
    simp [botReplyText, hok]
  · rw [sendMessage_nonempty st _ hne, sendMessage_nonempty st _ hne]
    simp [botReplyText, hok]
  · intro h
    rw [sendMessage_nonempty st _ hne]
    simp [h]

/-- Witness for C10 on concrete data: a 200 /chat response with an
unparseable body renders the connectivity-failure message. -/
theorem C10_witness :
    (sendMessage exChatState (FetchOutcome.response 200 ChatBody.unparseable)).1.chatBox =
      exChatState.chatBox ++ [ChatNode.msg (jsTrim exChatState.userInput) "user",
                              ChatNode.msg connectionErrorText "bot"] :=
  (C10_ok_unparseable_body exChatState 200 "err" (by decide) (by decide)).1

end Sagittarius
